import Mathlib

/-!
Formal model of an edge-deployed LLM chat relay and its browser-side
offline cache shell.

Two components are embedded:

* `Worker` — the edge worker module: the exported `fetch` request router
  and the `handleChatRequest` chat relay.  The two external collaborators
  (the AI inference binding `env.AI` and the static-asset binding
  `env.ASSETS`) are modelled as function-valued fields of the
  environment, and the streamed response body is an abstract type `σ`
  (the relay never looks inside it).

* `SW` — the cache-shell script: the `install`, `activate` and
  `fetch` lifecycle hooks over the browser cache storage, modelled as an
  explicit association-list state together with the network modelled as
  an oracle function.
-/

/-- JS `String.prototype.startsWith`: the receiver string begins with the
given search string.  Embedded on the character lists of the strings so
that it evaluates by kernel reduction. -/
def jsStartsWith (s pre : String) : Bool := pre.data.isPrefixOf s.data

namespace Worker

/-- A chat message: a role string and a content string. -/
structure ChatMessage where
  role : String
  content : String
  deriving DecidableEq, Repr

/-- The `MODEL_ID` constant of the worker module. -/
def MODEL_ID : String := "@cf/meta/llama-3.1-8b-instruct-fp8"

/-- The `SYSTEM_PROMPT` constant of the worker module (the default system
instruction text; apostrophes and double quotes are written as hex
escapes). -/
def SYSTEM_PROMPT : String := "You are Ben, a sharp and thoughtful AI assistant. You\x27re direct, warm, and genuinely useful — you don\x27t pad responses with filler, you don\x27t over-explain, and you don\x27t lecture.\n\n## Personality\n- Conversational and human in tone — like a knowledgeable friend, not a corporate chatbot\n- Confident but not arrogant. You have opinions and share them when asked\n- Concise by default. You match the length of your response to the complexity of the question — short questions get short answers, complex ones get thorough treatment\n- You have a dry, understated wit. You\x27re not trying to be funny, but you\x27re not robotic either\n- You never start a response with hollow affirmations like \x22Great question!\x22, \x22Certainly!\x22, \x22Of course!\x22, or \x22Absolutely!\x22\n\n## Behavior\n- Get to the point immediately. Lead with the answer, then add context if needed\n- When you don\x27t know something, say so plainly — don\x27t speculate as if it\x27s fact\n- If a question is ambiguous, make a reasonable assumption and answer it, then note your assumption at the end\n- For tasks (writing, coding, analysis), just do the task — don\x27t narrate what you\x27re about to do\n- You can push back respectfully if you disagree or think there\x27s a better approach\n- Avoid bullet points for conversational responses. Use them only when a list genuinely helps\n\n## Boundaries\n- You don\x27t produce harmful, illegal, or deceptive content\n- You don\x27t pretend to be a human if sincerely asked\n- You won\x27t claim to have real-time information or browsing ability unless that capability is explicitly enabled\n\n## Format\n- Default to plain prose for conversation\n- Use markdown (headers, bullets, code blocks) only when it adds clarity — not as decoration\n- Keep responses tight. If something can be said in one sentence, don\x27t use three"

/-- The parts of an incoming HTTP request the worker inspects.
`pathname` is `url.pathname` of the parsed request URL; `method` is the
HTTP method.  `jsonBody` models the outcome of `await request.json()`
followed by the destructuring `const \x7b messages = [] \x7d = ...`:

* `none` — the step throws (malformed JSON, a `null` body, or a
  `messages` value that is not an array, whose later `.some` access
  throws); control then reaches the catch block;
* `some none` — parsing succeeds but no usable `messages` array is
  present, so the destructuring default `[]` applies;
* `some (some l)` — parsing yields the message array `l`. -/
structure Request where
  pathname : String
  method : String
  jsonBody : Option (Option (List ChatMessage))
  deriving DecidableEq, Repr

/-- The body of a worker-constructed `Response`: either a plain text /
JSON string or the opaque stream handle obtained from the AI binding. -/
inductive Body (σ : Type) where
  | text (s : String)
  | stream (s : σ)
  deriving DecidableEq, Repr

/-- A `Response` as the worker constructs it: `new Response(body, init)`
(status defaults to 200, headers default to none). -/
structure Response (σ : Type) where
  status : Nat
  headers : List (String × String)
  body : Body σ
  deriving DecidableEq, Repr

/-- The options record passed as second argument to `env.AI.run`. -/
structure RunInput where
  messages : List ChatMessage
  max_tokens : Nat
  stream : Bool
  deriving DecidableEq, Repr

/-- The AI inference binding: `env.AI.run(MODEL_ID, input, options)`
either returns an opaque stream handle or throws (modelled as
`Except.error` with the thrown message). -/
structure AIBinding (σ : Type) where
  run : String → RunInput → Except String σ

/-- The static-asset binding: `env.ASSETS.fetch(request)` returns its own
response, opaque to the worker. -/
structure AssetsBinding (σ : Type) where
  fetch : Request → Response σ

/-- The worker environment with its two collaborator bindings. -/
structure Env (σ : Type) where
  AI : AIBinding σ
  ASSETS : AssetsBinding σ

variable {σ : Type}

/-- The system-prompt step of `handleChatRequest`: if no entry of
`messages` has role `"system"`, `messages.unshift` puts the default
system message at the front; otherwise the list is left unchanged. -/
def withSystemPrompt (messages : List ChatMessage) : List ChatMessage :=
  if !(messages.any fun msg => msg.role == "system") then
    { role := "system", content := SYSTEM_PROMPT } :: messages
  else
    messages

/-- The record passed to `env.AI.run`: the resolved message list,
`max_tokens: 1024`, `stream: true`. -/
def runInput (messages : List ChatMessage) : RunInput :=
  { messages := withSystemPrompt messages, max_tokens := 1024, stream := true }

/-- The fixed response of the catch block:
`JSON.stringify(\x7b error: "Failed to process request" \x7d)` with
status 500 and content-type `application/json`. -/
def errorResponse : Response σ :=
  { status := 500
    headers := [("content-type", "application/json")]
    body := .text "\x7b\x22error\x22:\x22Failed to process request\x22\x7d" }

/-- `handleChatRequest`, instrumented: the returned pair is the HTTP
response together with a record of the argument passed to `env.AI.run`
(`none` when the call was never reached because parsing threw first).
Control flow follows the source: parse the body, resolve the message
list, invoke the AI binding; any failure lands in the catch block which
returns `errorResponse`. -/
def handleChatRequest (request : Request) (env : Env σ) :
    Response σ × Option RunInput :=
  match request.jsonBody with
  | none => (errorResponse, none)
  | some body =>
    let messages := body.getD []
    let input := runInput messages
    match env.AI.run MODEL_ID input with
    | .error _ => (errorResponse, some input)
    | .ok stream =>
      ({ status := 200
         headers := [("content-type", "text/event-stream; charset=utf-8"),
                     ("cache-control", "no-cache"),
                     ("connection", "keep-alive")]
         body := .stream stream }, some input)

/-- The exported `fetch` handler: route on pathname and method.  Static
assets are delegated to `env.ASSETS.fetch`; `/api/chat` accepts only
POST; any other `/api/...` path is 404. -/
def fetch (request : Request) (env : Env σ) : Response σ × Option RunInput :=
  if request.pathname == "/" || !(jsStartsWith request.pathname "/api/") then
    (env.ASSETS.fetch request, none)
  else if request.pathname == "/api/chat" then
    if request.method == "POST" then
      handleChatRequest request env
    else
      ({ status := 405, headers := [], body := .text "Method not allowed" }, none)
  else
    ({ status := 404, headers := [], body := .text "Not found" }, none)

/-- Concrete environment for witnesses: the AI binding always succeeds
with a unit stream handle; assets return a fixed page. -/
def testEnv : Env Unit :=
  { AI := { run := fun _ _ => .ok () }
    ASSETS := { fetch := fun _ => { status := 200, headers := [], body := .text "index" } } }

/-- Concrete POST request to `/api/chat` with a single user message. -/
def chatPostRequest : Request :=
  { pathname := "/api/chat"
    method := "POST"
    jsonBody := some (some [{ role := "user", content := "hi" }]) }

/-- Concrete GET request to `/api/chat`. -/
def chatGetRequest : Request :=
  { pathname := "/api/chat", method := "GET", jsonBody := none }

/-- Concrete GET request for the root path. -/
def rootRequest : Request :=
  { pathname := "/", method := "GET", jsonBody := none }

/-- `withSystemPrompt` restated without the boolean negation. -/
theorem withSystemPrompt_eq (messages : List ChatMessage) :
    withSystemPrompt messages =
      if messages.any (fun msg => msg.role == "system") then messages
      else { role := "system", content := SYSTEM_PROMPT } :: messages := by
  unfold withSystemPrompt
  cases h : messages.any (fun msg => msg.role == "system") <;> simp [h]

/-- When parsing succeeds, the AI binding is invoked (on either branch of
its result) with exactly `runInput` of the defaulted message list. -/
theorem handleChatRequest_snd (σ : Type) (env : Env σ) (request : Request)
    (ob : Option (List ChatMessage)) (h : request.jsonBody = some ob) :
    (handleChatRequest request env).2 = some (runInput (ob.getD [])) := by
  unfold handleChatRequest
  simp only [h]
  cases env.AI.run MODEL_ID (runInput (ob.getD [])) <;> rfl

/-- C1: for every request whose body parses successfully, the message
list passed to the AI binding is the original list unchanged when some
entry has role `system`, and otherwise the default system message
followed by the original entries in order.  `max_tokens` is 1024 and
streaming is on. -/
theorem chat_messages_passed_to_inference (σ : Type) (env : Env σ)
    (request : Request) (ob : Option (List ChatMessage))
    (h : request.jsonBody = some ob) :
    (handleChatRequest request env).2 =
      some { messages :=
               if (ob.getD []).any (fun msg => msg.role == "system") then
                 ob.getD []
               else
                 { role := "system", content := SYSTEM_PROMPT } :: ob.getD []
             max_tokens := 1024
             stream := true } := by
  rw [handleChatRequest_snd σ env request ob h]
  simp only [runInput, withSystemPrompt_eq]

theorem chat_messages_passed_to_inference_witness :
    chatPostRequest.jsonBody = some (some [{ role := "user", content := "hi" }]) ∧
    (handleChatRequest chatPostRequest testEnv).2 =
      some { messages :=
               if ((some [({ role := "user", content := "hi" } : ChatMessage)]).getD []).any
                   (fun msg => msg.role == "system") then
                 (some [({ role := "user", content := "hi" } : ChatMessage)]).getD []
               else
                 { role := "system", content := SYSTEM_PROMPT } ::
                   (some [({ role := "user", content := "hi" } : ChatMessage)]).getD []
             max_tokens := 1024
             stream := true } :=
  ⟨rfl, chat_messages_passed_to_inference Unit testEnv chatPostRequest
    (some [{ role := "user", content := "hi" }]) rfl⟩

/-- C2: the relay answers with status 500, content-type
`application/json` and the fixed JSON error body exactly when parsing
threw or the AI invocation threw; both failure kinds collapse to this one
response and no other outcome produces it. -/
theorem chat_failure_http_500 (σ : Type) (env : Env σ) (request : Request) :
    (handleChatRequest request env).1 =
      { status := 500
        headers := [("content-type", "application/json")]
        body := .text "\x7b\x22error\x22:\x22Failed to process request\x22\x7d" } ↔
      (request.jsonBody = none ∨
        ∃ ob e, request.jsonBody = some ob ∧
          env.AI.run MODEL_ID (runInput (ob.getD [])) = .error e) := by
  cases hb : request.jsonBody with
  | none => simp [handleChatRequest, hb, errorResponse]
  | some ob =>
    cases hai : env.AI.run MODEL_ID (runInput (ob.getD [])) with
    | error e => simp [handleChatRequest, hb, hai, errorResponse]
    | ok s => simp [handleChatRequest, hb, hai, errorResponse]

/-- C3: when parsing succeeds and the AI invocation returns a stream
handle, the relay answers 200 with exactly that stream as body and
exactly the three SSE headers. -/
theorem chat_success_stream_response (σ : Type) (env : Env σ)
    (request : Request) (ob : Option (List ChatMessage)) (st : σ)
    (hb : request.jsonBody = some ob)
    (hai : env.AI.run MODEL_ID (runInput (ob.getD [])) = .ok st) :
    (handleChatRequest request env).1 =
      { status := 200
        headers := [("content-type", "text/event-stream; charset=utf-8"),
                    ("cache-control", "no-cache"),
                    ("connection", "keep-alive")]
        body := .stream st } := by
  simp [handleChatRequest, hb, hai]

theorem chat_success_stream_response_witness :
    chatPostRequest.jsonBody = some (some [{ role := "user", content := "hi" }]) ∧
    testEnv.AI.run MODEL_ID
      (runInput ((some [({ role := "user", content := "hi" } : ChatMessage)]).getD [])) = .ok () ∧
    (handleChatRequest chatPostRequest testEnv).1 =
      { status := 200
        headers := [("content-type", "text/event-stream; charset=utf-8"),
                    ("cache-control", "no-cache"),
                    ("connection", "keep-alive")]
        body := .stream () } :=
  ⟨rfl, rfl, chat_success_stream_response Unit testEnv chatPostRequest
    (some [{ role := "user", content := "hi" }]) () rfl rfl⟩

/-- C4: requests for `/` or for any path not starting with `/api/` are
answered with exactly the static-asset binding response, unchanged. -/
theorem router_static_passthrough (σ : Type) (env : Env σ) (request : Request)
    (h : request.pathname = "/" ∨ jsStartsWith request.pathname "/api/" = false) :
    (fetch request env).1 = env.ASSETS.fetch request := by
  unfold fetch
  rcases h with h | h <;> simp [h]

theorem router_static_passthrough_witness :
    (rootRequest.pathname = "/" ∨ jsStartsWith rootRequest.pathname "/api/" = false) ∧
    (fetch rootRequest testEnv).1 = testEnv.ASSETS.fetch rootRequest :=
  ⟨Or.inl rfl, router_static_passthrough Unit testEnv rootRequest (Or.inl rfl)⟩

/-- C5: under the `/api/` prefix, `/api/chat` with a method other than
POST is answered 405 `Method not allowed`, and any other path is
answered 404 `Not found`, whatever the method. -/
theorem router_api_error_responses (σ : Type) (env : Env σ) (request : Request)
    (h : jsStartsWith request.pathname "/api/" = true) :
    (request.pathname = "/api/chat" → request.method ≠ "POST" →
      (fetch request env).1 =
        { status := 405, headers := [], body := .text "Method not allowed" }) ∧
    (request.pathname ≠ "/api/chat" →
      (fetch request env).1 =
        { status := 404, headers := [], body := .text "Not found" }) := by
  have hne : request.pathname ≠ "/" := by
    intro e
    rw [e] at h
    exact absurd h (by decide)
  constructor
  · intro hc hm
    rw [hc] at h
    unfold fetch
    simp [hc, h, hm]
  · intro hc
    unfold fetch
    simp [hne, h, hc]

theorem router_api_error_responses_witness :
    jsStartsWith chatGetRequest.pathname "/api/" = true ∧
    ((chatGetRequest.pathname = "/api/chat" → chatGetRequest.method ≠ "POST" →
      (fetch chatGetRequest testEnv).1 =
        { status := 405, headers := [], body := .text "Method not allowed" }) ∧
     (chatGetRequest.pathname ≠ "/api/chat" →
      (fetch chatGetRequest testEnv).1 =
        { status := 404, headers := [], body := .text "Not found" })) :=
  ⟨by decide, router_api_error_responses Unit testEnv chatGetRequest (by decide)⟩

end Worker

namespace SW

/-- The `CACHE_NAME` version-string constant of the cache-shell script. -/
def CACHE_NAME : String := "ben-chat-v1"

/-- The `STATIC_ASSETS` constant: the shell asset URLs to pre-cache. -/
def STATIC_ASSETS : List String := ["/", "/index.html", "/chat.js", "/manifest.json"]

/-- A stored or served HTTP response snapshot. -/
structure Response where
  status : Nat
  body : String
  deriving DecidableEq, Repr

/-- The parts of an intercepted request the script inspects.  Cache
entries are keyed by request URL; for the same-origin requests this
script serves, the pathname identifies the URL, so it doubles as the
cache key (and `caches.match` called with a string such as
`/index.html` uses that string as the URL). -/
structure Request where
  pathname : String
  method : String
  mode : String
  deriving DecidableEq, Repr

/-- One cache bucket: an association list from request URL to stored
response. -/
abbrev Cache := List (String × Response)

/-- The browser cache storage: the named buckets in creation order. -/
abbrev CacheStorage := List (String × Cache)

/-- `Cache.match` on one bucket: the first stored response whose URL
matches. -/
def cacheMatch (c : Cache) (url : String) : Option Response :=
  (c.find? (fun e => e.1 == url)).map Prod.snd

/-- `caches.match`: search every bucket in order, returning the first
match found in any bucket. -/
def cachesMatch (cs : CacheStorage) (url : String) : Option Response :=
  cs.findSome? (fun b => cacheMatch b.2 url)

/-- `Cache.put`: store a response under a URL, overwriting any previous
entry for that URL. -/
def cachePut (c : Cache) (url : String) (r : Response) : Cache :=
  c.filter (fun e => e.1 != url) ++ [(url, r)]

/-- `caches.open`: the storage with the named bucket present (created
empty when missing). -/
def cachesOpen (cs : CacheStorage) (name : String) : CacheStorage :=
  if cs.any (fun b => b.1 == name) then cs else cs ++ [(name, [])]

/-- The bucket of the given name, when present. -/
def getBucket (cs : CacheStorage) (name : String) : Option Cache :=
  (cs.find? (fun b => b.1 == name)).map Prod.snd

/-- Replace the named bucket. -/
def setBucket (cs : CacheStorage) (name : String) (c : Cache) : CacheStorage :=
  cs.map (fun b => if b.1 == name then (name, c) else b)

/-- `caches.delete`: remove the named bucket. -/
def cachesDelete (cs : CacheStorage) (k : String) : CacheStorage :=
  cs.filter (fun b => b.1 != k)

/-- `caches.keys`: the bucket names. -/
def cachesKeys (cs : CacheStorage) : List String := cs.map Prod.fst

/-- `caches.open(CACHE_NAME).then(cache => cache.put(request, clone))`:
open the bucket (creating it when missing) and overwrite the entry. -/
def cachesOpenPut (cs : CacheStorage) (name url : String) (r : Response) :
    CacheStorage :=
  let cs1 := cachesOpen cs name
  setBucket cs1 name (cachePut ((getBucket cs1 name).getD []) url r)

/-- `Cache.addAll`: fetch every URL of the list; the batch is atomic —
when every fetch succeeds all pairs are stored, and when any fetch fails
the whole operation rejects with the bucket unchanged (the Cache API
batch-operation semantics; a non-ok response also rejects, which the
fetch oracle models by returning an error). -/
def cacheAddAll (c : Cache) (urls : List String)
    (net : String → Except Unit Response) : Except Unit Cache :=
  match urls.mapM (fun u => (net u).map (fun r => (u, r))) with
  | .ok entries => .ok (entries.foldl (fun acc e => cachePut acc e.1 e.2) c)
  | .error e => .error e

/-- The install hook: open the versioned bucket and attempt
`cache.addAll(STATIC_ASSETS)`, any rejection being swallowed by the
catch; the second component records whether the `waitUntil` promise
resolved, that is whether installation completed. -/
def handleInstall (cs : CacheStorage) (net : String → Except Unit Response) :
    CacheStorage × Bool :=
  let cs1 := cachesOpen cs CACHE_NAME
  match getBucket cs1 CACHE_NAME with
  | none => (cs1, true)
  | some c =>
    match cacheAddAll c STATIC_ASSETS net with
    | .ok c2 => (setBucket cs1 CACHE_NAME c2, true)
    | .error _ => (cs1, true)

/-- The activate hook: `caches.keys()`, keep the current bucket, delete
every bucket of another name. -/
def handleActivate (cs : CacheStorage) : CacheStorage :=
  ((cachesKeys cs).filter (fun k => k != CACHE_NAME)).foldl cachesDelete cs

/-- Outcome of the promise handed to `event.respondWith`. -/
inductive FetchOutcome where
  | response (r : Response)
  | noResponse
  | failure
  deriving DecidableEq, Repr

/-- Result of the fetch hook on one intercepted request: the outcome of
the `respondWith` promise (`response r` = resolved with `r`,
`noResponse` = resolved with `undefined`, `failure` = rejected), the
cache storage afterwards, and how many cache match (read) and put
(write) operations ran. -/
structure FetchResult where
  outcome : FetchOutcome
  caches : CacheStorage
  cacheReads : Nat
  cacheWrites : Nat
  deriving DecidableEq, Repr

/-- The fetch hook.  `/api/` paths go straight to the network with no
catch (a network failure rejects).  Everything else is cache-first; on a
miss the network response is returned, stored when it is a 200 GET; a
network failure lands in the catch, which returns the cached
`/index.html` for navigation requests and `undefined` (falls off the end
of the catch callback) otherwise. -/
def handleFetch (network : Request → Except Unit Response)
    (cs : CacheStorage) (request : Request) : FetchResult :=
  if jsStartsWith request.pathname "/api/" then
    match network request with
    | .ok r => { outcome := .response r, caches := cs, cacheReads := 0, cacheWrites := 0 }
    | .error _ => { outcome := .failure, caches := cs, cacheReads := 0, cacheWrites := 0 }
  else
    match cachesMatch cs request.pathname with
    | some cached =>
      { outcome := .response cached, caches := cs, cacheReads := 1, cacheWrites := 0 }
    | none =>
      match network request with
      | .ok response =>
        if request.method == "GET" && response.status == 200 then
          { outcome := .response response
            caches := cachesOpenPut cs CACHE_NAME request.pathname response
            cacheReads := 1
            cacheWrites := 1 }
        else
          { outcome := .response response, caches := cs, cacheReads := 1, cacheWrites := 0 }
      | .error _ =>
        if request.mode == "navigate" then
          match cachesMatch cs "/index.html" with
          | some doc =>
            { outcome := .response doc, caches := cs, cacheReads := 2, cacheWrites := 0 }
          | none =>
            { outcome := .noResponse, caches := cs, cacheReads := 2, cacheWrites := 0 }
        else
          { outcome := .noResponse, caches := cs, cacheReads := 1, cacheWrites := 0 }

/-- A network oracle that always succeeds, echoing the pathname. -/
def okNetwork : Request → Except Unit Response :=
  fun r => .ok { status := 200, body := r.pathname }

/-- A network oracle that always fails. -/
def failingNetwork : Request → Except Unit Response :=
  fun _ => .error ()

/-- An asset fetch oracle that fails exactly on `/manifest.json`. -/
def flakyAssetNetwork : String → Except Unit Response :=
  fun u => if u == "/manifest.json" then .error () else .ok { status := 200, body := u }

/-- A cache storage already holding entries, among them one under an
`/api/` URL and the root document. -/
def seededCaches : CacheStorage :=
  [(CACHE_NAME, [("/api/chat", { status := 200, body := "stale" }),
                 ("/index.html", { status := 200, body := "shell" })])]

/-- The stored root document used by the navigation-fallback witness. -/
def indexDoc : Response := { status := 200, body := "shell" }

/-- Storage holding only the root document under the current bucket. -/
def cachedShell : CacheStorage := [(CACHE_NAME, [("/index.html", indexDoc)])]

/-- Concrete API request. -/
def apiRequest : Request := { pathname := "/api/chat", method := "POST", mode := "cors" }

/-- Concrete non-navigation static request. -/
def scriptRequest : Request := { pathname := "/chat.js", method := "GET", mode := "no-cors" }

/-- Concrete navigation request. -/
def navRequest : Request := { pathname := "/about", method := "GET", mode := "navigate" }

/-- C6: an intercepted `/api/` request is answered by the direct network
fetch — the response on success, the propagated rejection on failure —
and handling it performs no cache read or write and leaves the storage
unchanged, whatever it contains. -/
theorem api_requests_bypass_cache (network : Request → Except Unit Response)
    (cs : CacheStorage) (request : Request)
    (h : jsStartsWith request.pathname "/api/" = true) :
    (handleFetch network cs request).caches = cs ∧
    (handleFetch network cs request).cacheReads = 0 ∧
    (handleFetch network cs request).cacheWrites = 0 ∧
    (handleFetch network cs request).outcome =
      (match network request with
        | .ok r => FetchOutcome.response r
        | .error _ => FetchOutcome.failure) := by
  unfold handleFetch
  cases hn : network request <;> simp [h, hn]

theorem api_requests_bypass_cache_witness :
    jsStartsWith apiRequest.pathname "/api/" = true ∧
    ((handleFetch okNetwork seededCaches apiRequest).caches = seededCaches ∧
     (handleFetch okNetwork seededCaches apiRequest).cacheReads = 0 ∧
     (handleFetch okNetwork seededCaches apiRequest).cacheWrites = 0 ∧
     (handleFetch okNetwork seededCaches apiRequest).outcome =
       (match okNetwork apiRequest with
         | .ok r => FetchOutcome.response r
         | .error _ => FetchOutcome.failure)) :=
  ⟨by decide, api_requests_bypass_cache okNetwork seededCaches apiRequest (by decide)⟩

/-- C7 counterexample: a non-navigation request that misses the empty
cache and whose network fetch fails does NOT make the handler reject:
its outcome is not `failure` (the catch swallowed the error and resolved
with `undefined`). -/
theorem non_navigation_failure_counterexample :
    cachesMatch ([] : CacheStorage) scriptRequest.pathname = none ∧
    failingNetwork scriptRequest = .error () ∧
    scriptRequest.mode ≠ "navigate" ∧
    ¬ (handleFetch failingNetwork [] scriptRequest).outcome = FetchOutcome.failure := by
  refine ⟨rfl, rfl, by decide, by decide⟩

/-- C7 (amended): for a non-`/api/` request that misses the cache, whose
network fetch fails and whose mode is not navigation, no fallback
response is produced, but the failure does not propagate: the catch
swallows it and the handler resolves with `undefined` (no response),
leaving the cache storage unchanged. -/
theorem non_navigation_failure_swallowed (network : Request → Except Unit Response)
    (cs : CacheStorage) (request : Request)
    (hapi : jsStartsWith request.pathname "/api/" = false)
    (hmiss : cachesMatch cs request.pathname = none)
    (hnet : network request = .error ())
    (hmode : request.mode ≠ "navigate") :
    (handleFetch network cs request).outcome = FetchOutcome.noResponse ∧
    (handleFetch network cs request).caches = cs := by
  unfold handleFetch
  simp [hapi, hmiss, hnet, hmode]

theorem non_navigation_failure_swallowed_witness :
    jsStartsWith scriptRequest.pathname "/api/" = false ∧
    cachesMatch ([] : CacheStorage) scriptRequest.pathname = none ∧
    failingNetwork scriptRequest = .error () ∧
    scriptRequest.mode ≠ "navigate" ∧
    ((handleFetch failingNetwork [] scriptRequest).outcome = FetchOutcome.noResponse ∧
     (handleFetch failingNetwork [] scriptRequest).caches = []) :=
  ⟨by decide, rfl, rfl, by decide,
    non_navigation_failure_swallowed failingNetwork [] scriptRequest
      (by decide) rfl rfl (by decide)⟩

/-- Folding `caches.delete` over a key list removes exactly the buckets
whose name occurs in the list. -/
theorem foldl_cachesDelete (K : List String) (cs : CacheStorage) :
    K.foldl cachesDelete cs = cs.filter (fun b => !(K.contains b.1)) := by
  induction K generalizing cs with
  | nil => simp
  | cons k K ih =>
    rw [List.foldl_cons, ih]
    unfold cachesDelete
    rw [List.filter_filter]
    apply List.filter_congr
    intro b _
    simp only [List.contains_cons, Bool.not_or, bne]
    cases hb1 : b.1 == k <;> cases hb2 : K.contains b.1 <;> rfl

/-- C8: the activate hook deletes exactly the buckets whose name differs
from `CACHE_NAME`: the storage afterwards is the original storage
restricted to the buckets named `CACHE_NAME`, so every prior-version
bucket is absent and the current bucket is kept. -/
theorem activate_purges_other_buckets (cs : CacheStorage) :
    handleActivate cs = cs.filter (fun b => b.1 == CACHE_NAME) := by
  unfold handleActivate
  rw [foldl_cachesDelete]
  apply List.filter_congr
  intro b hb
  by_cases hbn : b.1 = CACHE_NAME
  · have hnotmem : b.1 ∉ (cachesKeys cs).filter (fun k => k != CACHE_NAME) := by
      intro hmem
      have := (List.mem_filter.mp hmem).2
      simp [hbn] at this
    simp [hbn, hnotmem]
  · have hmem : b.1 ∈ (cachesKeys cs).filter (fun k => k != CACHE_NAME) := by
      refine List.mem_filter.mpr ⟨?_, by simp [hbn]⟩
      exact List.mem_map.mpr ⟨b, hb, rfl⟩
    simp [hbn, hmem]

/-- C9: a navigation request that misses the cache and whose network
fetch fails is answered with the stored root document when one is
cached. -/
theorem navigation_fallback_to_cached_root
    (network : Request → Except Unit Response)
    (cs : CacheStorage) (request : Request) (doc : Response)
    (hapi : jsStartsWith request.pathname "/api/" = false)
    (hmiss : cachesMatch cs request.pathname = none)
    (hnet : network request = .error ())
    (hmode : request.mode = "navigate")
    (hdoc : cachesMatch cs "/index.html" = some doc) :
    (handleFetch network cs request).outcome = FetchOutcome.response doc := by
  unfold handleFetch
  simp [hapi, hmiss, hnet, hmode, hdoc]

theorem navigation_fallback_to_cached_root_witness :
    jsStartsWith navRequest.pathname "/api/" = false ∧
    cachesMatch cachedShell navRequest.pathname = none ∧
    failingNetwork navRequest = .error () ∧
    navRequest.mode = "navigate" ∧
    cachesMatch cachedShell "/index.html" = some indexDoc ∧
    (handleFetch failingNetwork cachedShell navRequest).outcome =
      FetchOutcome.response indexDoc :=
  ⟨by decide, by decide, rfl, rfl, by decide,
    navigation_fallback_to_cached_root failingNetwork cachedShell navRequest indexDoc
      (by decide) (by decide) rfl rfl (by decide)⟩

/-- Fetching the batch fails as a whole as soon as one URL of the list
fails to fetch. -/
theorem mapM_fetch_error (urls : List String)
    (net : String → Except Unit Response)
    (h : ∃ u ∈ urls, net u = .error ()) :
    urls.mapM (fun u => (net u).map (fun r => (u, r))) = .error () := by
  induction urls with
  | nil => simp at h
  | cons u urls ih =>
    rcases h with ⟨v, hv, hnet⟩
    rw [List.mapM_cons]
    rcases List.mem_cons.mp hv with rfl | hv2
    · rw [hnet]; rfl
    · cases hu : net u with
      | error e => cases e; rfl
      | ok r =>
        rw [ih ⟨v, hv2, hnet⟩]
        rfl

/-- `cacheAddAll` rejects as a whole as soon as one asset fails. -/
theorem cacheAddAll_error (c : Cache) (urls : List String)
    (net : String → Except Unit Response)
    (h : ∃ u ∈ urls, net u = .error ()) :
    cacheAddAll c urls net = .error () := by
  unfold cacheAddAll
  rw [mapM_fetch_error urls net h]

/-- C10: when fetching any one of the shell assets fails, `addAll`
rejects as a whole and its rejection is swallowed, so the install step
stores nothing — the bucket is merely opened, with no partial
population — while installation itself still completes (second
component `true`). -/
theorem install_population_all_or_nothing (cs : CacheStorage)
    (net : String → Except Unit Response)
    (h : ∃ u ∈ STATIC_ASSETS, net u = .error ()) :
    handleInstall cs net = (cachesOpen cs CACHE_NAME, true) := by
  unfold handleInstall
  cases hg : getBucket (cachesOpen cs CACHE_NAME) CACHE_NAME with
  | none => simp [hg]
  | some c => simp [hg, cacheAddAll_error c STATIC_ASSETS net h]

theorem install_population_all_or_nothing_witness :
    (∃ u ∈ STATIC_ASSETS, flakyAssetNetwork u = .error ()) ∧
    handleInstall [] flakyAssetNetwork = (cachesOpen [] CACHE_NAME, true) :=
  ⟨⟨"/manifest.json", by decide, rfl⟩,
    install_population_all_or_nothing [] flakyAssetNetwork
      ⟨"/manifest.json", by decide, rfl⟩⟩

end SW
